import Mathlib

/-!
Verification development for the Mini Task Board frontend.

The definitions below are a shallow embedding of the client-side
reconciliation logic of the task board:

* `filterTasks` embeds the `filterTasks` function of
  `frontend/src/pages/Board.jsx` (search + priority filtering of the
  task cache);
* the mutation handlers (`handleCreateTask`, `handleQuickAddTask`,
  `handleUpdateTask`, `handleDeleteTask`, `handleQuickStatusChange`,
  `handleDragEnd`) and `fetchTasks` embed the corresponding async
  handlers of `Board.jsx`; each handler is modelled as a pure function
  from the current cache, the handler's arguments and the outcome of
  the remote call it issues to a record of its observable effects
  (cache at the await point, remote calls issued, cache after the
  outcome is handled, reloads triggered, toasts shown, logout);
* `taskFormSubmit` and `quickAddSubmit` embed the form validation of
  `components/TaskForm.jsx` and `components/QuickAddTask.jsx`;
* `setApiKey` / `getApiKey` / `requestHeaderApiKey` embed the API-key
  storage helpers and the axios request interceptor of
  `services/api.js`.

JavaScript string primitives used by that code (`trim`, `toLowerCase`,
`includes`, truthiness, first-occurrence `replace`) are embedded first,
as executable functions on `List Char`.
-/

namespace TaskBoard

/-! ## JavaScript string primitives -/

/-- Whitespace as recognised by `String.prototype.trim` (the characters
occurring in this code base). -/
def isJsWhitespace (c : Char) : Bool :=
  c = ' ' || c = '\t' || c = '\n' || c = '\r'

/-- Drop leading and trailing whitespace from a character list. -/
def trimChars (l : List Char) : List Char :=
  ((l.dropWhile isJsWhitespace).reverse.dropWhile isJsWhitespace).reverse

/-- `String.prototype.trim`: drop leading and trailing whitespace. -/
def jsTrim (s : String) : String :=
  String.mk (trimChars s.data)

/-- `String.prototype.toLowerCase` (ASCII case mapping). -/
def jsToLower (s : String) : String :=
  String.mk (s.data.map Char.toLower)

/-- `pat` occurs at the very start of `txt`. -/
def headMatch : List Char → List Char → Bool
  | [], _ => true
  | _ :: _, [] => false
  | p :: ps, t :: ts => p = t && headMatch ps ts

/-- `pat` occurs somewhere in `txt` (contiguously). -/
def occursIn (pat : List Char) : List Char → Bool
  | [] => headMatch pat []
  | c :: cs => headMatch pat (c :: cs) || occursIn pat cs

/-- `String.prototype.includes`: `jsIncludes s sub` is `true` iff `sub`
occurs as a contiguous substring of `s` (the empty string occurs in
every string). -/
def jsIncludes (s sub : String) : Bool :=
  occursIn sub.data s.data

/-- `String.prototype.replace('_', ' ')`: replace only the first
occurrence of an underscore with a space. -/
def replaceFirstUnderscore : List Char → List Char
  | [] => []
  | c :: cs => if c = '_' then ' ' :: cs else c :: replaceFirstUnderscore cs

/-- The success-toast text of `handleQuickStatusChange`:
`` `Task moved to ${newStatus.replace('_', ' ')}!` ``. -/
def movedToMessage (newStatus : String) : String :=
  "Task moved to " ++ String.mk (replaceFirstUnderscore newStatus.data) ++ "!"

/-! ## Data model -/

/-- A task record as held in the Board's task cache.  Statuses and
priorities travel as strings in the client code (`BACKLOG` /
`IN_PROGRESS` / `DONE`, `LOW` / `MEDIUM` / `HIGH`), so they are
embedded as strings. -/
structure Task where
  id : Nat
  title : String
  description : String
  status : String
  priority : String
  deriving Repr, DecidableEq

/-- A toast notification as produced by `showToast(message, type)`. -/
structure Toast where
  message : String
  kind : String
  deriving Repr, DecidableEq

/-! ## View filter (`filterTasks` in `Board.jsx`) -/

/-- The search predicate of `filterTasks`:
`task.title.toLowerCase().includes(searchQuery.toLowerCase())`. -/
def taskMatchesSearch (searchQuery : String) (t : Task) : Bool :=
  jsIncludes (jsToLower t.title) (jsToLower searchQuery)

/-- `filterTasks` from `Board.jsx`: the search filter is applied only
when `searchQuery.trim()` is truthy (non-empty), the priority filter
only when the selector is not `"ALL"`; both are sequential `filter`
passes over a copy of the cache. -/
def filterTasks (tasks : List Task) (searchQuery priorityFilter : String) : List Task :=
  let filtered := tasks
  let filtered :=
    if jsTrim searchQuery ≠ "" then
      filtered.filter (taskMatchesSearch searchQuery)
    else filtered
  let filtered :=
    if priorityFilter ≠ "ALL" then
      filtered.filter (fun t => t.priority == priorityFilter)
    else filtered
  filtered

/-- The Board component state read and written by `filterTasks` (the
`tasks`, `filteredTasks`, `searchQuery` and `priorityFilter` pieces of
`useState`). -/
structure BoardFilterState where
  tasks : List Task
  filteredTasks : List Task
  searchQuery : String
  priorityFilter : String
  deriving Repr, DecidableEq

/-- The effect of one invocation of `filterTasks` on the Board state:
it recomputes `filteredTasks` from `tasks`, `searchQuery` and
`priorityFilter` via `setFilteredTasks` and touches nothing else. -/
def runFilterTasks (st : BoardFilterState) : BoardFilterState :=
  { st with filteredTasks := filterTasks st.tasks st.searchQuery st.priorityFilter }

/-! ## Remote calls and handler effects

Each async handler of `Board.jsx` performs: an optional optimistic
cache rewrite, one remote call, then — depending on the call's
outcome — a toast, an optional rollback or full reload.  A handler is
embedded as a pure function from the cache, its arguments and the
remote outcome to a `HandlerRun` record of these observable effects. -/

/-- Outcome of a remote call: success, or failure (carrying whether the
failure is an authentication failure, HTTP 401/403). -/
inductive Outcome where
  | ok : Outcome
  | err (auth : Bool) : Outcome
  deriving Repr, DecidableEq

/-- The payload submitted by the full task form (`TaskForm.jsx`):
`formData` with an empty `due_date` removed. -/
structure SubmitData where
  title : String
  description : String
  status : String
  priority : String
  due_date : Option String
  deriving Repr, DecidableEq

/-- The payload submitted by the quick-add form (`QuickAddTask.jsx`):
`{ title: title.trim(), status, priority }`. -/
structure QuickDraft where
  title : String
  status : String
  priority : String
  deriving Repr, DecidableEq

/-- A remote call issued through `taskAPI` by one of the Board
handlers. -/
inductive RemoteCall where
  | createTask (d : SubmitData) : RemoteCall
  | quickCreateTask (d : QuickDraft) : RemoteCall
  | updateTask (id : Nat) (d : SubmitData) : RemoteCall
  | updateStatus (id : Nat) (status : String) : RemoteCall
  | deleteTask (id : Nat) : RemoteCall
  deriving Repr, DecidableEq

/-- Observable effects of one invocation of a Board mutation handler.
`cacheBefore` is the task cache at the moment the remote call is
issued (i.e. after any optimistic rewrite and before the `await`
resolves); `cacheAfter` is the cache once the outcome has been
handled, not counting the effect of any full reload it triggers
(`reloads` counts calls to `fetchTasks`).  `logsOut` records whether
the handler itself terminates the session. -/
structure HandlerRun where
  cacheBefore : List Task
  remoteCalls : List RemoteCall
  cacheAfter : List Task
  reloads : Nat
  toasts : List Toast
  logsOut : Bool
  deriving Repr, DecidableEq

/-- A handler run that touches nothing: no call, no cache change, no
toast, no reload. -/
def noopRun (tasks : List Task) : HandlerRun :=
  { cacheBefore := tasks
    remoteCalls := []
    cacheAfter := tasks
    reloads := 0
    toasts := []
    logsOut := false }

/-- Effects of `fetchTasks` in `Board.jsx` as a function of its remote
outcome: on success the cache is replaced wholesale by the response;
on 401/403 an invalid-key message is shown and `logout` is scheduled
after a 2-second delay; on any other failure a generic message is
shown and the session stays active. -/
structure FetchRun where
  errorMsg : Option String
  logsOut : Bool
  cacheReplaced : Bool
  deriving Repr, DecidableEq

/-- `fetchTasks` from `Board.jsx` (lines 59–75). -/
def fetchTasks : Outcome → FetchRun
  | .ok => { errorMsg := none, logsOut := false, cacheReplaced := true }
  | .err auth =>
    if auth then
      { errorMsg := some "Invalid API key. Please login again."
        logsOut := true
        cacheReplaced := false }
    else
      { errorMsg := some "Failed to fetch tasks. Please try again."
        logsOut := false
        cacheReplaced := false }

/-- `handleCreateTask` from `Board.jsx` (lines 95–104): no optimistic
mutation; on success close the modal, reload, success toast; on any
failure only a generic failure toast. -/
def handleCreateTask (tasks : List Task) (formData : SubmitData) : Outcome → HandlerRun
  | .ok =>
    { cacheBefore := tasks
      remoteCalls := [.createTask formData]
      cacheAfter := tasks
      reloads := 1
      toasts := [⟨"Task created successfully!", "success"⟩]
      logsOut := false }
  | .err _ =>
    { cacheBefore := tasks
      remoteCalls := [.createTask formData]
      cacheAfter := tasks
      reloads := 0
      toasts := [⟨"Failed to create task. Please try again.", "error"⟩]
      logsOut := false }

/-- `handleQuickAddTask` from `Board.jsx` (lines 106–114): same shape
as `handleCreateTask` with the quick-add payload and messages. -/
def handleQuickAddTask (tasks : List Task) (formData : QuickDraft) : Outcome → HandlerRun
  | .ok =>
    { cacheBefore := tasks
      remoteCalls := [.quickCreateTask formData]
      cacheAfter := tasks
      reloads := 1
      toasts := [⟨"Task added successfully!", "success"⟩]
      logsOut := false }
  | .err _ =>
    { cacheBefore := tasks
      remoteCalls := [.quickCreateTask formData]
      cacheAfter := tasks
      reloads := 0
      toasts := [⟨"Failed to add task. Please try again.", "error"⟩]
      logsOut := false }

/-- `handleUpdateTask` from `Board.jsx` (lines 116–126): full-form
edit of the task currently being edited; no optimistic mutation. -/
def handleUpdateTask (tasks : List Task) (editingId : Nat) (formData : SubmitData) :
    Outcome → HandlerRun
  | .ok =>
    { cacheBefore := tasks
      remoteCalls := [.updateTask editingId formData]
      cacheAfter := tasks
      reloads := 1
      toasts := [⟨"Task updated successfully!", "success"⟩]
      logsOut := false }
  | .err _ =>
    { cacheBefore := tasks
      remoteCalls := [.updateTask editingId formData]
      cacheAfter := tasks
      reloads := 0
      toasts := [⟨"Failed to update task. Please try again.", "error"⟩]
      logsOut := false }

/-- `handleDeleteTask` from `Board.jsx` (lines 128–137): no speculative
removal. -/
def handleDeleteTask (tasks : List Task) (deletingId : Nat) : Outcome → HandlerRun
  | .ok =>
    { cacheBefore := tasks
      remoteCalls := [.deleteTask deletingId]
      cacheAfter := tasks
      reloads := 1
      toasts := [⟨"Task deleted successfully!", "success"⟩]
      logsOut := false }
  | .err _ =>
    { cacheBefore := tasks
      remoteCalls := [.deleteTask deletingId]
      cacheAfter := tasks
      reloads := 0
      toasts := [⟨"Failed to delete task. Please try again.", "error"⟩]
      logsOut := false }

/-- The optimistic cache rewrite shared by `handleQuickStatusChange`
and `handleDragEnd`: `prevTasks.map(t => t.id === taskId ?
{ ...t, status } : t)`. -/
def applyStatusChange (tasks : List Task) (taskId : Nat) (status : String) : List Task :=
  tasks.map (fun t => if t.id == taskId then { t with status := status } else t)

/-- `handleQuickStatusChange` from `Board.jsx` (lines 139–161):
remember `previousStatus`, optimistically rewrite the cached task's
status, issue the partial update; on success only a toast; on failure
rewrite the status back to `previousStatus` and toast. -/
def handleQuickStatusChange (tasks : List Task) (task : Task) (newStatus : String) :
    Outcome → HandlerRun
  | .ok =>
    { cacheBefore := applyStatusChange tasks task.id newStatus
      remoteCalls := [.updateStatus task.id newStatus]
      cacheAfter := applyStatusChange tasks task.id newStatus
      reloads := 0
      toasts := [⟨movedToMessage newStatus, "success"⟩]
      logsOut := false }
  | .err _ =>
    { cacheBefore := applyStatusChange tasks task.id newStatus
      remoteCalls := [.updateStatus task.id newStatus]
      cacheAfter :=
        applyStatusChange (applyStatusChange tasks task.id newStatus) task.id task.status
      reloads := 0
      toasts := [⟨"Failed to update task status. Please try again.", "error"⟩]
      logsOut := false }

/-- A drag source or destination as delivered by the drag-and-drop
library: the column (`droppableId`, a status string) and the position
within it. -/
structure DragLoc where
  droppableId : String
  index : Nat
  deriving Repr, DecidableEq

/-- A drag-end event.  `draggableId` is the dragged task's id (the
code round-trips it through `toString` / `parseInt`); `destination`
is `none` when the drag was dropped outside any column. -/
structure DragResult where
  draggableId : Nat
  source : DragLoc
  destination : Option DragLoc
  deriving Repr, DecidableEq

/-- `handleDragEnd` from `Board.jsx` (lines 163–191): return early on
no destination or on an identical source/destination; otherwise
optimistically set the task's status to the destination column, issue
the partial update; on failure trigger a full reload (no in-place
revert) and toast. -/
def handleDragEnd (tasks : List Task) (result : DragResult) (outcome : Outcome) : HandlerRun :=
  match result.destination with
  | none => noopRun tasks
  | some destination =>
    if result.source.droppableId == destination.droppableId &&
        result.source.index == destination.index then
      noopRun tasks
    else
      let taskId := result.draggableId
      let newStatus := destination.droppableId
      match outcome with
      | .ok =>
        { cacheBefore := applyStatusChange tasks taskId newStatus
          remoteCalls := [.updateStatus taskId newStatus]
          cacheAfter := applyStatusChange tasks taskId newStatus
          reloads := 0
          toasts := [⟨"Task moved successfully!", "success"⟩]
          logsOut := false }
      | .err _ =>
        { cacheBefore := applyStatusChange tasks taskId newStatus
          remoteCalls := [.updateStatus taskId newStatus]
          cacheAfter := applyStatusChange tasks taskId newStatus
          reloads := 1
          toasts := [⟨"Failed to move task. Please try again.", "error"⟩]
          logsOut := false }

/-! ## Form validation (`TaskForm.jsx`, `QuickAddTask.jsx`) -/

/-- The `formData` state of `TaskForm.jsx`. -/
structure FormData where
  title : String
  description : String
  status : String
  priority : String
  due_date : String
  deriving Repr, DecidableEq

/-- `validate` from `TaskForm.jsx`: the only check is that
`formData.title.trim()` is truthy; `validate()` returns `true` iff the
error object stays empty. -/
def validateForm (fd : FormData) : Bool :=
  jsTrim fd.title ≠ ""

/-- `handleSubmit` from `TaskForm.jsx`: run `validate`; on failure
submit nothing, otherwise submit `formData` with an empty (falsy)
`due_date` removed. -/
def taskFormSubmit (fd : FormData) : Option SubmitData :=
  if validateForm fd then
    some { title := fd.title
           description := fd.description
           status := fd.status
           priority := fd.priority
           due_date := if fd.due_date = "" then none else some fd.due_date }
  else none

/-- `handleSubmit` from `QuickAddTask.jsx`: return without submitting
when `title.trim()` is falsy, otherwise call `onAdd` with the trimmed
title, the column's status and the selected priority. -/
def quickAddSubmit (title status priority : String) : Option QuickDraft :=
  if jsTrim title = "" then none
  else some { title := jsTrim title, status := status, priority := priority }

/-! ## API-key storage and the request interceptor (`services/api.js`) -/

/-- Browser `localStorage`, as a finite map from key names to stored
strings (`getItem` returns `null`, i.e. `none`, for absent keys). -/
def LocalStorage : Type := String → Option String

/-- JavaScript truthiness of a `getItem` result: `null` and the empty
string are falsy. -/
def truthy : Option String → Bool
  | none => false
  | some s => s ≠ ""

/-- JavaScript `a || b` on `getItem` results. -/
def jsOrElse (a b : Option String) : Option String :=
  if truthy a then a else b

/-- `setApiKey` from `services/api.js`:
`localStorage.setItem('apiKey', key)`. -/
def setApiKey (store : LocalStorage) (key : String) : LocalStorage :=
  fun name => if name = "apiKey" then some key else store name

/-- `getApiKey` from `services/api.js`:
`localStorage.getItem('apiKey')`. -/
def getApiKey (store : LocalStorage) : Option String :=
  store "apiKey"

/-- The axios request interceptor of `services/api.js`: read
`localStorage.getItem('apiKey') || import.meta.env.VITE_API_KEY`, and
when that is truthy set the `X-API-KEY` header to it (`none` means the
header is left unset).  The interceptor runs on every request the
`taskAPI` methods issue. -/
def requestHeaderApiKey (store : LocalStorage) (envKey : Option String) : Option String :=
  let apiKey := jsOrElse (store "apiKey") envKey
  if truthy apiKey then apiKey else none

/-! ## Helper lemmas -/

/-- Tasks of a cache whose ids are `Nodup` are determined by their id. -/
theorem eq_of_mem_of_id_eq {tasks : List Task} {t T : Task}
    (hnodup : (tasks.map Task.id).Nodup) (ht : t ∈ tasks) (hT : T ∈ tasks)
    (h : t.id = T.id) : t = T :=
  List.inj_on_of_nodup_map hnodup ht hT h

/-- Rolling the optimistic rewrite back to the remembered previous
status restores the original cache, provided ids are unique and the
handler was invoked on the cached task itself. -/
theorem applyStatusChange_rollback (tasks : List Task) (T : Task) (B : String)
    (hmem : T ∈ tasks) (hnodup : (tasks.map Task.id).Nodup) :
    applyStatusChange (applyStatusChange tasks T.id B) T.id T.status = tasks := by
  unfold applyStatusChange
  rw [List.map_map]
  have hcongr : ∀ t ∈ tasks,
      ((fun t => if t.id == T.id then { t with status := T.status } else t) ∘
        (fun t => if t.id == T.id then { t with status := B } else t)) t = id t := by
    intro t ht
    by_cases h : t.id = T.id
    · have ht' : t = T := eq_of_mem_of_id_eq hnodup ht hmem h
      subst ht'
      simp
    · simp [h]
  rw [List.map_congr_left hcongr, List.map_id]

/-- Look a task up in the cache by id (first match). -/
def getTask (tasks : List Task) (taskId : Nat) : Option Task :=
  tasks.find? (fun t => t.id == taskId)

theorem getTask_eq_self {tasks : List Task} {T : Task}
    (hmem : T ∈ tasks) (hnodup : (tasks.map Task.id).Nodup) :
    getTask tasks T.id = some T := by
  have hsome : (tasks.find? (fun t => t.id == T.id)).isSome := by
    rw [List.find?_isSome]
    exact ⟨T, hmem, by simp⟩
  obtain ⟨t0, ht0⟩ := Option.isSome_iff_exists.mp hsome
  have h1 := List.find?_some ht0
  have h2 := List.mem_of_find?_eq_some ht0
  have h3 : t0 = T := eq_of_mem_of_id_eq hnodup h2 hmem (by simpa using h1)
  rw [getTask, ht0, h3]

theorem getTask_applyStatusChange_self (tasks : List Task) (T : Task) (B : String)
    (hmem : T ∈ tasks) (hnodup : (tasks.map Task.id).Nodup) :
    getTask (applyStatusChange tasks T.id B) T.id = some { T with status := B } := by
  unfold getTask applyStatusChange
  rw [List.find?_map]
  have hp : ((fun t => t.id == T.id) ∘
      (fun (t : Task) => if t.id == T.id then { t with status := B } else t)) =
      fun t => t.id == T.id := by
    funext t
    by_cases h : t.id = T.id <;> simp [h]
  rw [hp]
  have hfind : tasks.find? (fun t => t.id == T.id) = some T := getTask_eq_self hmem hnodup
  rw [hfind]
  simp

theorem dropWhile_idem (p : Char → Bool) (l : List Char) :
    (l.dropWhile p).dropWhile p = l.dropWhile p := by
  induction l with
  | nil => rfl
  | cons a as ih =>
    by_cases h : p a
    · simp [List.dropWhile_cons, h, ih]
    · simp [List.dropWhile_cons, h]

/-- A leading part of `l.dropWhile p` is untouched by another
`dropWhile p` pass. -/
theorem dropWhile_eq_self_of_leadingPart (p : Char → Bool) (l l' : List Char)
    (h : l' <+: l.dropWhile p) : l'.dropWhile p = l' := by
  cases l' with
  | nil => rfl
  | cons a as =>
    have hhead : (l.dropWhile p).head? = some a := by
      rcases h with ⟨t, ht⟩
      rw [← ht]
      rfl
    have hpa := List.head?_dropWhile_not p l
    rw [hhead] at hpa
    simp only at hpa
    simp [List.dropWhile_cons, hpa]

/-- Trimming the tail of a list yields a leading part of it. -/
theorem reverse_dropWhile_reverse_leadingPart (p : Char → Bool) (l : List Char) :
    (l.reverse.dropWhile p).reverse <+: l := by
  have h : (l.reverse.dropWhile p).reverse <+: l.reverse.reverse :=
    List.reverse_prefix.mpr (List.dropWhile_suffix p)
  rwa [List.reverse_reverse] at h

theorem trimChars_idem (l : List Char) : trimChars (trimChars l) = trimChars l := by
  unfold trimChars
  have h1 : (((l.dropWhile isJsWhitespace).reverse.dropWhile isJsWhitespace).reverse).dropWhile
      isJsWhitespace =
      ((l.dropWhile isJsWhitespace).reverse.dropWhile isJsWhitespace).reverse :=
    dropWhile_eq_self_of_leadingPart isJsWhitespace l
      ((l.dropWhile isJsWhitespace).reverse.dropWhile isJsWhitespace).reverse
      (reverse_dropWhile_reverse_leadingPart isJsWhitespace (l.dropWhile isJsWhitespace))
  rw [h1, List.reverse_reverse, dropWhile_idem]

theorem jsTrim_idem (s : String) : jsTrim (jsTrim s) = jsTrim s :=
  congrArg String.mk (trimChars_idem s.data)

/-! ## Claims -/

/-- Claim C1: for every cache with unique ids containing a task `T`, if
`handleQuickStatusChange T B` is invoked and the remote partial update
fails, then after the failure is handled the cache is exactly the
original cache again (the task with `T`'s id is rolled back to its
remembered previous status and no other task is changed), and exactly
one failure toast is emitted. -/
theorem quickStatusChange_failure_rollback (tasks : List Task) (T : Task) (B : String)
    (a : Bool) (hmem : T ∈ tasks) (hnodup : (tasks.map Task.id).Nodup) :
    (handleQuickStatusChange tasks T B (.err a)).cacheAfter = tasks ∧
    (handleQuickStatusChange tasks T B (.err a)).toasts =
      [⟨"Failed to update task status. Please try again.", "error"⟩] := by
  refine ⟨?_, rfl⟩
  show applyStatusChange (applyStatusChange tasks T.id B) T.id T.status = tasks
  exact applyStatusChange_rollback tasks T B hmem hnodup

/-- Witness for C1: the spec's scenario — a one-task cache in
`BACKLOG`, quick change to `DONE`, remote failure, cache rolled back
and one failure toast. -/
theorem quickStatusChange_failure_rollback_witness :
    ((⟨1, "write spec", "", "BACKLOG", "LOW"⟩ : Task) ∈
        [(⟨1, "write spec", "", "BACKLOG", "LOW"⟩ : Task)]) ∧
    (handleQuickStatusChange [⟨1, "write spec", "", "BACKLOG", "LOW"⟩]
        ⟨1, "write spec", "", "BACKLOG", "LOW"⟩ "DONE" (.err false)).cacheAfter =
      [⟨1, "write spec", "", "BACKLOG", "LOW"⟩] ∧
    (handleQuickStatusChange [⟨1, "write spec", "", "BACKLOG", "LOW"⟩]
        ⟨1, "write spec", "", "BACKLOG", "LOW"⟩ "DONE" (.err false)).toasts =
      [⟨"Failed to update task status. Please try again.", "error"⟩] := by
  refine ⟨by decide, ?_⟩
  exact quickStatusChange_failure_rollback _ _ "DONE" false (by decide) (by decide)

/-- Claim C2: `handleQuickStatusChange` rewrites the cached task's
status to the new status already in the cache state at the await
point (before the remote call resolves), and on success the cache is
unchanged from that optimistic state, no reload is triggered, and the
status remains the new one. -/
theorem quickStatusChange_success_optimistic (tasks : List Task) (T : Task) (B : String)
    (hmem : T ∈ tasks) (hnodup : (tasks.map Task.id).Nodup) :
    getTask (handleQuickStatusChange tasks T B .ok).cacheBefore T.id =
      some { T with status := B } ∧
    (handleQuickStatusChange tasks T B .ok).cacheAfter =
      (handleQuickStatusChange tasks T B .ok).cacheBefore ∧
    (handleQuickStatusChange tasks T B .ok).reloads = 0 ∧
    getTask (handleQuickStatusChange tasks T B .ok).cacheAfter T.id =
      some { T with status := B } := by
  have h1 : getTask (applyStatusChange tasks T.id B) T.id = some { T with status := B } :=
    getTask_applyStatusChange_self tasks T B hmem hnodup
  exact ⟨h1, rfl, rfl, h1⟩

/-- Witness for C2 at a concrete one-task cache. -/
theorem quickStatusChange_success_optimistic_witness :
    getTask (handleQuickStatusChange [⟨1, "write spec", "", "BACKLOG", "LOW"⟩]
        ⟨1, "write spec", "", "BACKLOG", "LOW"⟩ "DONE" .ok).cacheBefore 1 =
      some ⟨1, "write spec", "", "DONE", "LOW"⟩ ∧
    (handleQuickStatusChange [⟨1, "write spec", "", "BACKLOG", "LOW"⟩]
        ⟨1, "write spec", "", "BACKLOG", "LOW"⟩ "DONE" .ok).reloads = 0 := by
  have h := quickStatusChange_success_optimistic [⟨1, "write spec", "", "BACKLOG", "LOW"⟩]
    ⟨1, "write spec", "", "BACKLOG", "LOW"⟩ "DONE" (by decide) (by decide)
  exact ⟨h.1, h.2.2.1⟩

/-- Claim C3, counterexample: the claimed membership equivalence fails
for the whitespace search string `" "`: `filterTasks` skips the search
filter whenever the query trims to empty, so a task titled `"abc"` is
returned even though its title does not contain `" "`. -/
theorem filter_claim_counterexample :
    ¬ (((⟨1, "abc", "", "BACKLOG", "LOW"⟩ : Task) ∈
          filterTasks [⟨1, "abc", "", "BACKLOG", "LOW"⟩] " " "ALL") ↔
        (jsIncludes (jsToLower "abc") (jsToLower " ") = true ∧
          ("ALL" = "ALL" ∨ "LOW" = "ALL"))) := by decide

/-- Claim C3, amended: `filterTasks C s p` is a subsequence of `C`,
and a task of `C` is in the result iff (`s` trims to the empty string,
or its title contains `s` case-insensitively) and (`p` is `"ALL"` or
the task's priority equals `p`); the predicates are conjoined. -/
theorem filter_membership_amended (C : List Task) (s p : String) :
    (filterTasks C s p).Sublist C ∧
    (∀ t ∈ C, (t ∈ filterTasks C s p ↔
      ((jsTrim s = "" ∨ jsIncludes (jsToLower t.title) (jsToLower s) = true) ∧
        (p = "ALL" ∨ t.priority = p)))) := by
  unfold filterTasks
  by_cases hs : jsTrim s = "" <;> by_cases hp : p = "ALL" <;>
    simp only [hs, hp, ne_eq, not_true_eq_false, not_false_eq_true, if_true, if_false,
      ite_true, ite_false, if_neg, if_pos]
  · exact ⟨List.Sublist.refl C, fun t ht => by simp [ht]⟩
  · refine ⟨List.filter_sublist C, fun t ht => ?_⟩
    simp [List.mem_filter, ht]
  · refine ⟨List.filter_sublist C, fun t ht => ?_⟩
    simp [List.mem_filter, ht, taskMatchesSearch]
  · refine ⟨(List.filter_sublist _).trans (List.filter_sublist C), fun t ht => ?_⟩
    simp [List.mem_filter, ht, taskMatchesSearch]
    tauto

/-- Witness for the amended C3: the spec's scenario — searching `"wri"`
over Buy milk / Write report returns the Write report task. -/
theorem filter_membership_amended_witness :
    (⟨2, "Write report", "", "BACKLOG", "LOW"⟩ : Task) ∈
      filterTasks [⟨1, "Buy milk", "", "BACKLOG", "LOW"⟩,
        ⟨2, "Write report", "", "BACKLOG", "LOW"⟩] "wri" "ALL" :=
  ((filter_membership_amended
      [⟨1, "Buy milk", "", "BACKLOG", "LOW"⟩, ⟨2, "Write report", "", "BACKLOG", "LOW"⟩]
      "wri" "ALL").2 ⟨2, "Write report", "", "BACKLOG", "LOW"⟩ (by decide)).mpr (by decide)

/-- Claim C4: when the remote create call fails, the cache is exactly
the cache that existed before the operation began — both at the await
point (no speculative insertion) and after the failure is handled —
no reload is triggered, and a failure toast is emitted. -/
theorem createTask_failure_frame (tasks : List Task) (formData : SubmitData) (a : Bool) :
    (handleCreateTask tasks formData (.err a)).cacheBefore = tasks ∧
    (handleCreateTask tasks formData (.err a)).cacheAfter = tasks ∧
    (handleCreateTask tasks formData (.err a)).reloads = 0 ∧
    (handleCreateTask tasks formData (.err a)).toasts =
      [⟨"Failed to create task. Please try again.", "error"⟩] :=
  ⟨rfl, rfl, rfl, rfl⟩

/-- Claim C5: a drag event with no destination, or whose destination
column and index both equal its source, issues zero remote calls,
leaves the cache untouched, raises no toast and triggers no reload. -/
theorem dragEnd_noop (tasks : List Task) (result : DragResult) (outcome : Outcome)
    (h : result.destination = none ∨
      ∃ d, result.destination = some d ∧ d.droppableId = result.source.droppableId ∧
        d.index = result.source.index) :
    (handleDragEnd tasks result outcome).remoteCalls = [] ∧
    (handleDragEnd tasks result outcome).cacheBefore = tasks ∧
    (handleDragEnd tasks result outcome).cacheAfter = tasks ∧
    (handleDragEnd tasks result outcome).toasts = [] ∧
    (handleDragEnd tasks result outcome).reloads = 0 := by
  have hrun : handleDragEnd tasks result outcome = noopRun tasks := by
    rcases h with h | ⟨d, hd, h1, h2⟩
    · unfold handleDragEnd
      rw [h]
    · unfold handleDragEnd
      rw [hd]
      simp [h1, h2]
  rw [hrun]
  exact ⟨rfl, rfl, rfl, rfl, rfl⟩

/-- Witness for C5: dropping a task back onto its own position. -/
theorem dragEnd_noop_witness :
    (handleDragEnd [] ⟨1, ⟨"BACKLOG", 0⟩, some ⟨"BACKLOG", 0⟩⟩ .ok).remoteCalls = [] ∧
    (handleDragEnd [] ⟨1, ⟨"BACKLOG", 0⟩, some ⟨"BACKLOG", 0⟩⟩ .ok).cacheBefore = [] ∧
    (handleDragEnd [] ⟨1, ⟨"BACKLOG", 0⟩, some ⟨"BACKLOG", 0⟩⟩ .ok).cacheAfter = [] ∧
    (handleDragEnd [] ⟨1, ⟨"BACKLOG", 0⟩, some ⟨"BACKLOG", 0⟩⟩ .ok).toasts = [] ∧
    (handleDragEnd [] ⟨1, ⟨"BACKLOG", 0⟩, some ⟨"BACKLOG", 0⟩⟩ .ok).reloads = 0 :=
  dragEnd_noop [] ⟨1, ⟨"BACKLOG", 0⟩, some ⟨"BACKLOG", 0⟩⟩ .ok
    (Or.inr ⟨⟨"BACKLOG", 0⟩, rfl, rfl, rfl⟩)

/-- Claim C6, counterexample: an authentication failure (401/403) on
the create path does not terminate the session — `handleCreateTask`
catches every error alike, shows only the generic failure toast and
never logs out, contradicting the claim that auth failures log the
session out on every mutation path. -/
theorem authFailure_create_counterexample :
    (handleCreateTask [] ⟨"write spec", "", "BACKLOG", "LOW", none⟩ (.err true)).logsOut
        = false ∧
    (handleCreateTask [] ⟨"write spec", "", "BACKLOG", "LOW", none⟩ (.err true)).toasts =
      [⟨"Failed to create task. Please try again.", "error"⟩] :=
  ⟨rfl, rfl⟩

/-- Claim C6, amended: only the load path distinguishes auth failures:
`fetchTasks` on 401/403 shows the invalid-key message and terminates
the session after a short delay, and on other failures shows a generic
message without logout; every mutation handler — Create, QuickAdd,
Update, Delete, QuickStatusChange, and DragMove (unless the drag was
the no-op early return, which shows nothing) — shows only its fixed
generic failure toast and never itself terminates the session,
whatever the failure kind. -/
theorem authFailure_handling_amended :
    (fetchTasks (.err true)).logsOut = true ∧
    (fetchTasks (.err true)).errorMsg = some "Invalid API key. Please login again." ∧
    (fetchTasks (.err false)).logsOut = false ∧
    (fetchTasks (.err false)).errorMsg = some "Failed to fetch tasks. Please try again." ∧
    (fetchTasks .ok).logsOut = false ∧
    (∀ tasks formData outcome, (handleCreateTask tasks formData outcome).logsOut = false) ∧
    (∀ tasks formData outcome, (handleQuickAddTask tasks formData outcome).logsOut = false) ∧
    (∀ tasks editingId formData outcome,
      (handleUpdateTask tasks editingId formData outcome).logsOut = false) ∧
    (∀ tasks deletingId outcome, (handleDeleteTask tasks deletingId outcome).logsOut = false) ∧
    (∀ tasks task newStatus outcome,
      (handleQuickStatusChange tasks task newStatus outcome).logsOut = false) ∧
    (∀ tasks result outcome, (handleDragEnd tasks result outcome).logsOut = false) ∧
    (∀ tasks formData a, (handleCreateTask tasks formData (.err a)).toasts =
      [⟨"Failed to create task. Please try again.", "error"⟩]) ∧
    (∀ tasks formData a, (handleQuickAddTask tasks formData (.err a)).toasts =
      [⟨"Failed to add task. Please try again.", "error"⟩]) ∧
    (∀ tasks editingId formData a, (handleUpdateTask tasks editingId formData (.err a)).toasts =
      [⟨"Failed to update task. Please try again.", "error"⟩]) ∧
    (∀ tasks deletingId a, (handleDeleteTask tasks deletingId (.err a)).toasts =
      [⟨"Failed to delete task. Please try again.", "error"⟩]) ∧
    (∀ tasks task newStatus a, (handleQuickStatusChange tasks task newStatus (.err a)).toasts =
      [⟨"Failed to update task status. Please try again.", "error"⟩]) ∧
    (∀ tasks result a, (handleDragEnd tasks result (.err a)).toasts =
        [⟨"Failed to move task. Please try again.", "error"⟩] ∨
      handleDragEnd tasks result (.err a) = noopRun tasks) := by
  refine ⟨rfl, rfl, rfl, rfl, rfl, ?_, ?_, ?_, ?_, ?_, ?_, ?_, ?_, ?_, ?_, ?_, ?_⟩
  · intro tasks formData outcome; cases outcome <;> rfl
  · intro tasks formData outcome; cases outcome <;> rfl
  · intro tasks editingId formData outcome; cases outcome <;> rfl
  · intro tasks deletingId outcome; cases outcome <;> rfl
  · intro tasks task newStatus outcome; cases outcome <;> rfl
  · intro tasks result outcome
    unfold handleDragEnd
    rcases result with ⟨tid, src, dst⟩
    cases dst with
    | none => rfl
    | some d =>
      dsimp only
      split
      · rfl
      · cases outcome <;> rfl
  · intro tasks formData a; rfl
  · intro tasks formData a; rfl
  · intro tasks editingId formData a; rfl
  · intro tasks deletingId a; rfl
  · intro tasks task newStatus a; rfl
  · intro tasks result a
    unfold handleDragEnd
    rcases result with ⟨tid, src, dst⟩
    cases dst with
    | none => exact Or.inr rfl
    | some d =>
      dsimp only
      split
      · exact Or.inr rfl
      · exact Or.inl rfl

/-- Claim C7: `filterTasks` is a pure, deterministic derivation: one
invocation only rewrites `filteredTasks`, leaving the cache and both
filter inputs untouched, a second invocation changes nothing
(idempotence), and two invocations over identical inputs produce
identical results. -/
theorem filterTasks_pure (st st' : BoardFilterState)
    (htasks : st.tasks = st'.tasks) (hq : st.searchQuery = st'.searchQuery)
    (hp : st.priorityFilter = st'.priorityFilter) :
    runFilterTasks (runFilterTasks st) = runFilterTasks st ∧
    (runFilterTasks st).tasks = st.tasks ∧
    (runFilterTasks st).searchQuery = st.searchQuery ∧
    (runFilterTasks st).priorityFilter = st.priorityFilter ∧
    (runFilterTasks st).filteredTasks = (runFilterTasks st').filteredTasks := by
  refine ⟨rfl, rfl, rfl, rfl, ?_⟩
  simp [runFilterTasks, htasks, hq, hp]

/-- Witness for C7 at a concrete Board state. -/
theorem filterTasks_pure_witness :
    runFilterTasks (runFilterTasks ⟨[], [], "", "ALL"⟩) = runFilterTasks ⟨[], [], "", "ALL"⟩ ∧
    (runFilterTasks (⟨[], [], "", "ALL"⟩ : BoardFilterState)).tasks = [] ∧
    (runFilterTasks (⟨[], [], "", "ALL"⟩ : BoardFilterState)).searchQuery = "" ∧
    (runFilterTasks (⟨[], [], "", "ALL"⟩ : BoardFilterState)).priorityFilter = "ALL" ∧
    (runFilterTasks (⟨[], [], "", "ALL"⟩ : BoardFilterState)).filteredTasks =
      (runFilterTasks (⟨[], [], "", "ALL"⟩ : BoardFilterState)).filteredTasks :=
  filterTasks_pure ⟨[], [], "", "ALL"⟩ ⟨[], [], "", "ALL"⟩ rfl rfl rfl

/-- Claim C8: any (non-blank) API key saved through `setApiKey` lands
in local storage under the fixed name `"apiKey"`, and the request
interceptor then sets the `X-API-KEY` header of every outgoing request
to exactly that stored value. -/
theorem apiKey_persisted_and_attached (store : LocalStorage) (envKey : Option String)
    (key : String) (hkey : jsTrim key ≠ "") :
    getApiKey (setApiKey store key) = some key ∧
    requestHeaderApiKey (setApiKey store key) envKey = some key := by
  have hne : key ≠ "" := by
    intro h
    subst h
    exact hkey rfl
  constructor
  · simp [getApiKey, setApiKey]
  · simp [requestHeaderApiKey, setApiKey, jsOrElse, truthy, hne]

/-- Witness for C8 with the development key from the login screen. -/
theorem apiKey_persisted_and_attached_witness :
    getApiKey (setApiKey (fun _ => none) "dev-api-key-12345") = some "dev-api-key-12345" ∧
    requestHeaderApiKey (setApiKey (fun _ => none) "dev-api-key-12345") none =
      some "dev-api-key-12345" :=
  apiKey_persisted_and_attached (fun _ => none) none "dev-api-key-12345" (by decide)

/-- Claim C9: every payload that passes form validation and is
submitted — via the full task form or the quick-add form — has a title
that is non-empty after trimming whitespace. -/
theorem submitted_title_nonblank :
    (∀ fd d, taskFormSubmit fd = some d → jsTrim d.title ≠ "") ∧
    (∀ title status priority d, quickAddSubmit title status priority = some d →
      jsTrim d.title ≠ "") := by
  constructor
  · intro fd d h
    unfold taskFormSubmit at h
    split at h
    · rename_i hv
      cases h
      simpa [validateForm] using hv
    · cases h
  · intro title status priority d h
    unfold quickAddSubmit at h
    split at h
    · cases h
    · rename_i hv
      cases h
      show jsTrim (jsTrim title) ≠ ""
      rw [jsTrim_idem]
      exact hv

/-- Witness for C9: the quick-add form submitting a padded title. -/
theorem submitted_title_nonblank_witness :
    jsTrim (QuickDraft.title ⟨"write spec", "BACKLOG", "LOW"⟩) ≠ "" :=
  submitted_title_nonblank.2 "  write spec " "BACKLOG" "LOW"
    ⟨"write spec", "BACKLOG", "LOW"⟩ (by decide)

/-- Claim C10: a same-column drag to a different index is not caught
by the early return: the handler still issues one partial-update call
setting the task's status to its current (source-column) status, and
the optimistic rewrite leaves every cached task exactly as it was. -/
theorem dragEnd_sameColumn_reorder (tasks : List Task) (taskId : Nat) (src dst : DragLoc)
    (outcome : Outcome) (hcol : dst.droppableId = src.droppableId)
    (hidx : dst.index ≠ src.index)
    (hstatus : ∀ t ∈ tasks, t.id = taskId → t.status = src.droppableId) :
    (handleDragEnd tasks ⟨taskId, src, some dst⟩ outcome).remoteCalls =
      [.updateStatus taskId src.droppableId] ∧
    (handleDragEnd tasks ⟨taskId, src, some dst⟩ outcome).cacheBefore = tasks := by
  have hcond : (src.droppableId == dst.droppableId && src.index == dst.index) = false := by
    have hi : (src.index == dst.index) = false := by
      simp only [beq_eq_false_iff_ne, ne_eq]
      exact fun h => hidx h.symm
    simp [hi]
  have hopt : applyStatusChange tasks taskId dst.droppableId = tasks := by
    unfold applyStatusChange
    have hfix : ∀ t ∈ tasks,
        (if t.id == taskId then { t with status := dst.droppableId } else t) = id t := by
      intro t ht
      by_cases h : t.id = taskId
      · rw [if_pos (by simpa using h), hcol, ← hstatus t ht h]
        rfl
      · rw [if_neg (by simpa using h)]
        rfl
    rw [List.map_congr_left hfix, List.map_id]
  unfold handleDragEnd
  simp only [hcond]
  cases outcome with
  | ok =>
    refine ⟨?_, ?_⟩
    · simp [hcol]
    · simpa using hopt
  | err a =>
    refine ⟨?_, ?_⟩
    · simp [hcol]
    · simpa using hopt

/-- Witness for C10: reordering a `BACKLOG` task within its column
issues one redundant status update and rewrites nothing. -/
theorem dragEnd_sameColumn_reorder_witness :
    (handleDragEnd [⟨1, "write spec", "", "BACKLOG", "LOW"⟩]
        ⟨1, ⟨"BACKLOG", 0⟩, some ⟨"BACKLOG", 1⟩⟩ .ok).remoteCalls =
      [.updateStatus 1 "BACKLOG"] ∧
    (handleDragEnd [⟨1, "write spec", "", "BACKLOG", "LOW"⟩]
        ⟨1, ⟨"BACKLOG", 0⟩, some ⟨"BACKLOG", 1⟩⟩ .ok).cacheBefore =
      [⟨1, "write spec", "", "BACKLOG", "LOW"⟩] :=
  dragEnd_sameColumn_reorder [⟨1, "write spec", "", "BACKLOG", "LOW"⟩] 1
    ⟨"BACKLOG", 0⟩ ⟨"BACKLOG", 1⟩ .ok rfl (by decide) (by decide)

end TaskBoard
